import Mathlib

/-!
# MovieGen video-assembly pipeline: shallow embedding and verification

This file embeds the core of `src/agents/burns_ffmpeg.py` (the Ken-Burns
effect synthesizer, the timing computation, the concatenation / audio-muxing /
subtitle / music stages and the cleanup logic of the module-level pipeline)
as Lean definitions, and settles the frozen claims about that code.

Modelling conventions:
* Python floats are modelled as exact rationals (`ℚ`).
* The stream of values consumed from `random` by `generate_random_zoompan`
  is reified as an explicit `Draws` record; theorems quantify over all draws.
* External processes (ffmpeg/ffprobe) are modelled by their observable
  behaviour: the pipeline is a function from an environment `Env` (probe
  results, process exit codes, file-existence facts) to a process exit code
  plus a trace of encoder invocations and file operations (`List Event`).
* ffmpeg filter expressions are embedded as a small AST (`FExpr`); `pow` is
  evaluated through an abstract interpretation `powf` because the exponent
  1.5 is not rational-valued.
-/

namespace MovieGen

/-! ## Clip effect synthesizer (`generate_random_zoompan`, lines 43–84) -/

/-- The sequence of random draws consumed by one call of
`generate_random_zoompan`.  `zoomStartDraw` comes from `random.uniform(1.0, 1.4)`,
`zoomEndDraw` from `random.uniform(1.2, 1.5)`, the four pan draws from
`random.uniform(0, 0.3)`, the booleans from `random.choice([True, False])`
(the nudge booleans are consumed only when the corresponding axis is nudged),
and `easingIdx` indexes `random.choice(['', 'in', 'out', 'in_out'])`. -/
structure Draws where
  zoomStartDraw : ℚ
  zoomEndDraw : ℚ
  swapZoom : Bool
  xStartDraw : ℚ
  yStartDraw : ℚ
  xEndDraw : ℚ
  yEndDraw : ℚ
  xNudgeUp : Bool
  yNudgeUp : Bool
  easingIdx : Fin 4
deriving DecidableEq

/-- The ranges of the uniform distributions the draws are sampled from. -/
def Draws.InRange (d : Draws) : Prop :=
  1 ≤ d.zoomStartDraw ∧ d.zoomStartDraw ≤ 14/10 ∧
  12/10 ≤ d.zoomEndDraw ∧ d.zoomEndDraw ≤ 15/10 ∧
  0 ≤ d.xStartDraw ∧ d.xStartDraw ≤ 3/10 ∧
  0 ≤ d.yStartDraw ∧ d.yStartDraw ≤ 3/10 ∧
  0 ≤ d.xEndDraw ∧ d.xEndDraw ≤ 3/10 ∧
  0 ≤ d.yEndDraw ∧ d.yEndDraw ≤ 3/10

instance (d : Draws) : Decidable d.InRange := by
  unfold Draws.InRange; infer_instance

/-- The clamp `max(0, min(0.3, q))` applied to a nudged pan endpoint — applied to a nudged pan endpoint
(lines 64 and 68). -/
def clampPan (q : ℚ) : ℚ := max 0 (min (3/10) q)

/-- The "ensure some movement" step (lines 62–68): if start and end of one
pan axis are closer than 0.1, the end is re-set to `start ± 0.2` (direction
given by a fresh `random.choice`) and clamped into `[0, 0.3]`. -/
def nudgeAxis (s e : ℚ) (up : Bool) : ℚ :=
  if |e - s| < 1/10 then clampPan (s + (if up then 2/10 else -(2/10))) else e

/-- The numeric parameter set of one Ken-Burns effect, as fixed by
lines 46–68 of `generate_random_zoompan`. -/
structure EffectParams where
  zoomStart : ℚ
  zoomEnd : ℚ
  xStart : ℚ
  yStart : ℚ
  xEnd : ℚ
  yEnd : ℚ
deriving DecidableEq

/-- Lines 46–68: draw the zoom endpoints (optionally swapped, line 50),
the pan endpoints, and nudge each pan axis that moves by less than 0.1. -/
def effectParams (d : Draws) : EffectParams :=
  { zoomStart := if d.swapZoom then d.zoomEndDraw else d.zoomStartDraw
    zoomEnd := if d.swapZoom then d.zoomStartDraw else d.zoomEndDraw
    xStart := d.xStartDraw
    yStart := d.yStartDraw
    xEnd := nudgeAxis d.xStartDraw d.xEndDraw d.xNudgeUp
    yEnd := nudgeAxis d.yStartDraw d.yEndDraw d.yNudgeUp }

/-- AST of the ffmpeg arithmetic expressions the synthesizer emits
(`on` is zoompan's output-frame counter; `iteLte a b t e` is
`if(lte(a,b),t,e)`). -/
inductive FExpr where
  | const (q : ℚ)
  | onv
  | add (a b : FExpr)
  | sub (a b : FExpr)
  | mul (a b : FExpr)
  | div (a b : FExpr)
  | pow (a b : FExpr)
  | iteLte (a b t e : FExpr)
deriving DecidableEq

/-- Evaluate an `FExpr` at output frame `frame`, interpreting ffmpeg's
`pow` by an abstract `powf` (the exponent 1.5 has no rational meaning). -/
def FExpr.eval (powf : ℚ → ℚ → ℚ) (frame : ℚ) : FExpr → ℚ
  | .const q => q
  | .onv => frame
  | .add a b => a.eval powf frame + b.eval powf frame
  | .sub a b => a.eval powf frame - b.eval powf frame
  | .mul a b => a.eval powf frame * b.eval powf frame
  | .div a b => a.eval powf frame / b.eval powf frame
  | .pow a b => powf (a.eval powf frame) (b.eval powf frame)
  | .iteLte a b t e =>
      if a.eval powf frame ≤ b.eval powf frame then t.eval powf frame
      else e.eval powf frame

/-- The values of all divisors occurring in an expression (used to exhibit
zero/negative denominators). -/
def FExpr.divisorVals (powf : ℚ → ℚ → ℚ) (frame : ℚ) : FExpr → List ℚ
  | .const _ => []
  | .onv => []
  | .add a b => a.divisorVals powf frame ++ b.divisorVals powf frame
  | .sub a b => a.divisorVals powf frame ++ b.divisorVals powf frame
  | .mul a b => a.divisorVals powf frame ++ b.divisorVals powf frame
  | .div a b => a.divisorVals powf frame ++ b.divisorVals powf frame
      ++ [b.eval powf frame]
  | .pow a b => a.divisorVals powf frame ++ b.divisorVals powf frame
  | .iteLte a b t e => a.divisorVals powf frame ++ b.divisorVals powf frame
      ++ t.divisorVals powf frame ++ e.divisorVals powf frame

/-- Line 75: `'if(lte(on,1),{zs},{zs}+({ze}-{zs})*pow((on-1)/({D}-1),2))'`. -/
def zoomExpr (zs ze : ℚ) (d : ℤ) : FExpr :=
  .iteLte .onv (.const 1) (.const zs)
    (.add (.const zs)
      (.mul (.sub (.const ze) (.const zs))
        (.pow (.div (.sub .onv (.const 1)) (.sub (.const (d : ℚ)) (.const 1)))
          (.const 2))))

/-- Lines 76–77: `'{s}+({e}-{s})*pow(on/{D},1.5)'` (one per pan axis). -/
def panExpr (s e : ℚ) (d : ℤ) : FExpr :=
  .add (.const s)
    (.mul (.sub (.const e) (.const s))
      (.pow (.div .onv (.const (d : ℚ))) (.const (3/2))))

/-- The zoompan filter of line 80:
`zoompan=z={zoom_expr}:x=iw*{x_expr}:y=ih*{y_expr}:d={D}:s=768x1280`.
`x` and `y` hold the normalized pan expressions (multiplied by `iw` resp.
`ih` in the rendered string). -/
structure ZoompanFilter where
  z : FExpr
  x : FExpr
  y : FExpr
  d : ℤ
  width : ℕ
  height : ℕ
deriving DecidableEq

/-- Function `generate_random_zoompan` (lines 43–84): fix the effect parameters from
the draws and build the zoompan filter.  The easing draw (lines 71–72) is
consumed but never used in the filter. -/
def generate_random_zoompan (dr : Draws) (durationFrames : ℤ) : ZoompanFilter :=
  let p := effectParams dr
  { z := zoomExpr p.zoomStart p.zoomEnd durationFrames
    x := panExpr p.xStart p.xEnd durationFrames
    y := panExpr p.yStart p.yEnd durationFrames
    d := durationFrames
    width := 768
    height := 1280 }

/-! ## Silence detection (`is_audio_silent`, lines 249–285) -/

/-- The volume-scanning loop of lines 276–283, driven by the list of
`mean_volume` parse results per matching stderr line: a `none` entry stands
for a line whose number fails to parse (`float` raises, so the surrounding
`try` returns `False`); a `some v` entry is a parsed reading, returning
`True` as soon as one is below −60. -/
def scanVolume : List (Option ℚ) → Bool
  | [] => false
  | none :: _ => false
  | some v :: rest => if v < -60 then true else scanVolume rest

/-- Function `is_audio_silent` (lines 249–285).  `durProbe` is the ffprobe duration
(`none` when the probe or the `float` parse raises); `volAnalysis` is `none`
when running the volumedetect command itself raises, otherwise the list of
`mean_volume` readings described at `scanVolume`. -/
def is_audio_silent (durProbe : Option ℚ)
    (volAnalysis : Option (List (Option ℚ))) : Bool :=
  match durProbe with
  | none => true
  | some d =>
      if d = 0 then true
      else
        match volAnalysis with
        | none => false
        | some ls => scanVolume ls

/-- Spec-side reading of "the measured mean volume is below −60 dB": some
stderr line yields a parsed reading below −60, and every earlier
`mean_volume` line also parsed (so the reading is actually reached before
any parse error aborts the scan). -/
def ReachesSubThreshold (ls : List (Option ℚ)) : Prop :=
  ∃ (i : ℕ) (v : ℚ), ls[i]? = some (some v) ∧ v < -60 ∧
    ∀ j < i, ∃ w : ℚ, ls[j]? = some (some w)

/-! ## Pipeline paths and artifacts (lines 100–108, 177, 213, 223, 331–385) -/

/-- Python's `os.path.join` on the POSIX platform the pipeline runs on. -/
def pathJoin (a b : String) : String := a ++ "/" ++ b

/-- A single-quote character, used by the manifest `file '<path>'` directive. -/
def squote : String := String.singleton (Char.ofNat 39)

/-- One manifest line, line 218: `file '<absolute path>'`. -/
def fileDirective (p : String) : String := "file " ++ squote ++ p ++ squote

/-- Python's `f"{n:02d}"`: zero-pad to two digits. -/
def pad2 (n : ℕ) : String := if n < 10 then "0" ++ toString n else toString n

/-- Line 177: `temp_clip_{i+1:02d}.mp4`. -/
def tempClipName (n : ℕ) : String := "temp_clip_" ++ pad2 n ++ ".mp4"

/-- The audio-muxing ffmpeg invocation of lines 293–307 (`-map 0:v:0`,
`-map 1:a:0`, `-c:v copy`, `-c:a aac`, `-b:a 128k`, `-ac 2`, `-ar 44100`,
`-shortest`; `shortest` records that the output is truncated to the shorter
input). -/
structure MuxCmd where
  videoInput : String
  audioInput : String
  output : String
  videoCodec : String
  audioCodec : String
  bitrate : String
  channels : ℕ
  sampleRate : ℕ
  shortest : Bool
deriving DecidableEq

/-- Observable pipeline actions: encoder invocations, file writes/deletes and
the audio-verification warning.  `mixMusic` records the amix parameters of
line 390 (`duration=first`, `dropout_transition=2`) and `-c:v copy`. -/
inductive Event where
  | renderClip (image : String) (filter : ZoompanFilter) (durSec : ℚ)
      (outPath : String)
  | missingClips (paths : List String)
  | writeManifest (path : String) (lines : List String)
  | concatEncode (manifestPath videoCodec outPath : String)
  | mux (cmd : MuxCmd)
  | warnNoAudioStream
  | burnSubtitles (input srt outPath : String)
  | trimMusic (music : String) (durSec : ℚ) (outPath : String)
  | mixMusic (videoInput musicInput : String) (amixDurationFirst : Bool)
      (dropoutTransition : ℕ) (videoCopy : Bool) (outPath : String)
  | deleteFile (path : String)
deriving DecidableEq

/-- The environment one pipeline run observes: the discovered scene assets
and the outcome of each external probe / encoder invocation.  Functions of
the run's own computation (filter parameters, manifests, timing) are *not*
in here — they are computed by `pipeline` itself. -/
structure Env where
  /-- the active scene directory (lines 93–104) -/
  imageFolder : String
  /-- sorted `beat_*.png` files discovered by `get_image_files` (line 147) -/
  imageFiles : List String
  /-- ffprobe duration of `speech.mp3` (line 154); `none` = probe failed,
  in which case `get_audio_duration` falls back to 30.0 -/
  narrDurProbe : Option ℚ
  /-- Result of `os.path.exists` for each temp clip after the render loop (line 204) -/
  clipExists : String → Bool
  /-- Python's `os.path.abspath` -/
  absPath : String → String
  /-- exit code of the concatenation encoder (line 237) -/
  concatExit : ℕ
  /-- whether `temp_video.mp4` exists after concatenation (line 242) -/
  tempVideoCreated : Bool
  /-- duration probe inside `is_audio_silent` (lines 252–261) -/
  silentDurProbe : Option ℚ
  /-- volumedetect outcome inside `is_audio_silent` (lines 267–285) -/
  volAnalysis : Option (List (Option ℚ))
  /-- Result of `os.path.exists(audio_file)` (line 290) -/
  speechExists : Bool
  /-- exit code of the muxing encoder (line 309) -/
  muxExit : ℕ
  /-- exit code of the audio-verification ffprobe (line 323) -/
  verifyExit : ℕ
  /-- whether the verification probe printed a non-empty stream list -/
  verifyStdoutNonempty : Bool
  /-- Result of `os.path.exists(srt_file)` (line 333) -/
  srtExists : Bool
  /-- exit code of the subtitle encoder (line 351; ignored beyond logging) -/
  subExit : ℕ
  /-- The `music_*.mp3` candidates discovered at line 362 -/
  musicFiles : List String
  /-- exit code of the music-trim encoder (line 379) -/
  trimExit : ℕ
  /-- exit code of the music-mix encoder (line 399; ignored beyond logging) -/
  mixExit : ℕ
  /-- the random draws consumed for image `i` -/
  draws : ℕ → Draws

/-- Path of `speech.mp3` in the scene directory (line 103). -/
def Env.speechFile (e : Env) : String := pathJoin e.imageFolder "speech.mp3"

/-- Path of `movie.mp4` in the scene directory (line 104). -/
def Env.outputFile (e : Env) : String := pathJoin e.imageFolder "movie.mp4"

/-- Path of `concat_list.txt` (line 213). -/
def Env.concatFile (e : Env) : String := pathJoin e.imageFolder "concat_list.txt"

/-- Path of `temp_video.mp4` (line 223). -/
def Env.tempVideo (e : Env) : String := pathJoin e.imageFolder "temp_video.mp4"

/-- Path of `speech.srt` (line 331). -/
def Env.srtFile (e : Env) : String := pathJoin e.imageFolder "speech.srt"

/-- Path of `movie_subtitled.mp4` (line 332). -/
def Env.subtitledOutput (e : Env) : String :=
  pathJoin e.imageFolder "movie_subtitled.mp4"

/-- Path of `music_trimmed.mp3` (line 368). -/
def Env.trimmedMusic (e : Env) : String :=
  pathJoin e.imageFolder "music_trimmed.mp3"

/-- Path of `movie_final.mp4` (line 385). -/
def Env.finalOutput (e : Env) : String :=
  pathJoin e.imageFolder "movie_final.mp4"

/-- The expected per-image clip paths, in image order (lines 170–178). -/
def Env.clipPaths (e : Env) : List String :=
  (List.range e.imageFiles.length).map
    fun i => pathJoin e.imageFolder (tempClipName (i + 1))

/-! ## Timing computation (lines 154–163) -/

/-- Line 155: `time_per_image = audio_duration / num_images`. -/
def timePerImage (t : ℚ) (n : ℕ) : ℚ := t / n

/-- Python's `int()` on a (here rational-modelled) float: truncation toward
zero, i.e. floor for nonnegative arguments and ceiling for negative ones. -/
def ratTrunc (q : ℚ) : ℤ := if 0 ≤ q then ⌊q⌋ else ⌈q⌉

/-- Line 163: `frames_per_image = int(time_per_image * fps)` with `fps = 25`. -/
def framesPerImage (t : ℚ) (n : ℕ) : ℤ := ratTrunc (timePerImage t n * 25)

/-! ## The module-level pipeline (lines 147–420) -/

/-- The muxing command of lines 293–307. -/
def muxCommand (env : Env) : MuxCmd :=
  { videoInput := env.tempVideo
    audioInput := env.speechFile
    output := env.outputFile
    videoCodec := "copy"
    audioCodec := "aac"
    bitrate := "128k"
    channels := 2
    sampleRate := 44100
    shortest := true }

/-- Lines 313–327: after a successful mux, probe the output for an audio
stream; a failed probe or empty stream list is only a warning. -/
def verifyEvents (env : Env) : List Event :=
  if env.verifyExit = 0 ∧ env.verifyStdoutNonempty then []
  else [.warnNoAudioStream]

/-- Lines 329–358: burn in `speech.srt` when present; a failing subtitle
encoder is only logged. -/
def subtitleEvents (env : Env) : List Event :=
  if env.srtExists then
    [.burnSubtitles env.outputFile (env.absPath env.srtFile)
      env.subtitledOutput]
  else []

/-- Lines 360–404: if a `music_*.mp3` candidate exists, trim the first one
to the narration duration and — when the trim succeeded — mix it under
`movie_subtitled.mp4` (the subtitle stage's output path, regardless of
whether that stage ran). -/
def musicEvents (env : Env) (t : ℚ) : List Event :=
  match env.musicFiles with
  | [] => []
  | m :: _ =>
      .trimMusic m t env.trimmedMusic ::
        (if env.trimExit = 0 then
          [.mixMusic env.subtitledOutput env.trimmedMusic true 2 true
            env.finalOutput]
        else [])

/-- Lines 406–415: delete each still-existing temp clip and the manifest;
the `temp_video.mp4` removal is commented out in the source. -/
def cleanupEvents (env : Env) (clips : List String) : List Event :=
  (clips.filter fun c => env.clipExists c).map .deleteFile
    ++ [.deleteFile env.concatFile]

/-- Lines 201–420: everything after the per-image render loop.  Returns the
process exit code and the emitted events.  Note that a failing mux encoder
(lines 416–419) only logs and lets the script end, so the exit code is 0
there as well. -/
def pipelineTail (env : Env) (t : ℚ) (clips : List String) : ℕ × List Event :=
  let missing := clips.filter fun c => !env.clipExists c
  if missing = [] then
    let manifest := clips.map fun c => fileDirective (env.absPath c)
    let ev1 : List Event :=
      [.writeManifest env.concatFile manifest,
       .concatEncode (env.absPath env.concatFile) "libx264" env.tempVideo]
    if env.concatExit ≠ 0 then (1, ev1)
    else if env.tempVideoCreated = false then (1, ev1)
    else if is_audio_silent env.silentDurProbe env.volAnalysis then (1, ev1)
    else if env.speechExists = false then (1, ev1)
    else
      let ev2 := ev1 ++ [.mux (muxCommand env)]
      if env.muxExit = 0 then
        (0, ev2 ++ verifyEvents env ++ subtitleEvents env
          ++ musicEvents env t ++ cleanupEvents env clips)
      else (0, ev2)
  else (1, [.missingClips missing])

/-- The render loop of lines 168–197: one clip per image, each with a fresh
effect from the draw stream, clip duration `time_per_image` seconds and
frame count `frames_per_image`. -/
def rendersList (env : Env) : List Event :=
  let t := env.narrDurProbe.getD 30
  let n := env.imageFiles.length
  (List.range n).map fun i =>
    .renderClip (env.imageFiles.getD i "")
      (generate_random_zoompan (env.draws i) (framesPerImage t n))
      (timePerImage t n)
      (pathJoin env.imageFolder (tempClipName (i + 1)))

/-- The whole module-level pipeline, lines 147–420: abort with exit code 1
when no image was discovered (lines 150–152), otherwise render every clip
and run the concatenation / mux / subtitle / music / cleanup tail. -/
def pipeline (env : Env) : ℕ × List Event :=
  if env.imageFiles.length = 0 then (1, [])
  else
    let tail := pipelineTail env (env.narrDurProbe.getD 30) env.clipPaths
    (tail.1, rendersList env ++ tail.2)

/-! ## Spec-side definitions (written from the spec's words, for comparison) -/

/-- Modelled from the spec (§4.2): the zoom trajectory "starts at
`zoom_start` for frame 0, then eases toward `zoom_end` using an ease-out
quadratic in normalized progress `(frame-1)/(D-1)`". -/
def zoomCurveSpec (zs ze : ℚ) (d : ℤ) (frame : ℕ) : ℚ :=
  if frame = 0 then zs
  else zs + (ze - zs) * (((frame : ℚ) - 1) / ((d : ℚ) - 1)) ^ 2

/-- Modelled from the spec (§4.2): the pan trajectory "eases from start to
end coordinate using a power curve with exponent 1.5 in normalized progress
`frame/D`" — the exponent-1.5 power is the same abstract `powf` the code
expression is evaluated with, since `x ^ 1.5` is not rational-valued. -/
def panCurveSpec (s e : ℚ) (d : ℤ) (powf : ℚ → ℚ → ℚ) (frame : ℕ) : ℚ :=
  s + (e - s) * powf ((frame : ℚ) / (d : ℚ)) (3/2)

/-- The amount added to a pan start coordinate by the nudge step
(`0.2` or `-0.2` depending on the direction draw, lines 63 and 67). -/
def nudgeDelta (up : Bool) : ℚ := if up then 2/10 else -(2/10)

/-- All preconditions of the muxing encoder hold: every expected clip
exists, concatenation succeeded and produced `temp_video.mp4`, the narration
is not classified silent, and `speech.mp3` exists. -/
def Reached (env : Env) (clips : List String) : Prop :=
  clips.filter (fun c => !env.clipExists c) = [] ∧ env.concatExit = 0 ∧
  env.tempVideoCreated = true ∧
  is_audio_silent env.silentDurProbe env.volAnalysis = false ∧
  env.speechExists = true

instance (env : Env) (clips : List String) : Decidable (Reached env clips) := by
  unfold Reached; infer_instance

/-- The video inputs of all music-mix invocations in a trace. -/
def mixInputs (tr : List Event) : List String :=
  tr.filterMap fun e =>
    match e with
    | .mixMusic vi _ _ _ _ _ => some vi
    | _ => none

/-- The clip duration of a render event, if any. -/
def renderDur (e : Event) : Option ℚ :=
  match e with
  | .renderClip _ _ d _ => some d
  | _ => none

/-! ## Concrete inputs used by witnesses and counterexamples -/

/-- An unremarkable draw sequence (all values inside their ranges, pan
moving from the origin by 0.25 on each axis, so no nudge fires). -/
def baseDraws : Draws :=
  { zoomStartDraw := 11/10, zoomEndDraw := 13/10, swapZoom := false
    xStartDraw := 0, yStartDraw := 0, xEndDraw := 1/4, yEndDraw := 1/4
    xNudgeUp := true, yNudgeUp := true, easingIdx := 0 }

/-- A draw sequence on which the nudge-and-clamp step fails to ensure 0.1 of
pan movement: `x` starts and ends at 0.25, the positive nudge overshoots to
0.45 and the clamp brings it back to 0.3, leaving a gap of only 0.05. -/
def badDraws : Draws :=
  { zoomStartDraw := 11/10, zoomEndDraw := 13/10, swapZoom := false
    xStartDraw := 1/4, yStartDraw := 0, xEndDraw := 1/4, yEndDraw := 1/4
    xNudgeUp := true, yNudgeUp := true, easingIdx := 0 }

/-- A fully healthy scene: three images, 12 s of narration, every probe and
encoder succeeding, one music candidate, a subtitle file present. -/
def baseEnv : Env :=
  { imageFolder := "/scene"
    imageFiles := ["/scene/beat_01.png", "/scene/beat_02.png",
      "/scene/beat_03.png"]
    narrDurProbe := some 12
    clipExists := fun _ => true
    absPath := fun s => s
    concatExit := 0
    tempVideoCreated := true
    silentDurProbe := some 12
    volAnalysis := some [some (-20)]
    speechExists := true
    muxExit := 0
    verifyExit := 0
    verifyStdoutNonempty := true
    srtExists := true
    subExit := 0
    musicFiles := ["/scene/music_a.mp3"]
    trimExit := 0
    mixExit := 0
    draws := fun _ => baseDraws }

/-- Like `baseEnv` but without a subtitle file. -/
def noSrtEnv : Env := { baseEnv with srtExists := false }

/-- Like `baseEnv` but with one expected clip missing after the render loop. -/
def missingClipEnv : Env :=
  { baseEnv with
    clipExists := fun s => !(s == pathJoin "/scene" (tempClipName 2)) }

/-- Like `baseEnv` but with silent narration (mean volume −70 dB). -/
def silentEnv : Env := { baseEnv with volAnalysis := some [some (-70)] }

/-- Like `baseEnv` but whose narration is so short (0.1 s for 2 images) that each
clip gets `int(0.05 * 25) = 1` frame. -/
def shortEnv : Env :=
  { baseEnv with
    imageFiles := ["/scene/beat_01.png", "/scene/beat_02.png"]
    narrDurProbe := some (1/10) }

/-! ## Helper lemmas -/

lemma pathJoin_right_inj {f a b : String} (h : pathJoin f a = pathJoin f b) :
    a = b := by
  have hd := congrArg String.data h
  simp only [pathJoin, String.data_append, List.append_assoc] at hd
  exact String.ext (List.append_cancel_left (List.append_cancel_left hd))

lemma tempClipName_ne_tempVideo (n : ℕ) :
    tempClipName n ≠ "temp_video.mp4" := by
  intro h
  have h5 : (tempClipName n).data[5]? = some 'c' := by
    simp only [tempClipName, String.data_append, List.append_assoc]
    rw [List.getElem?_append_left (by decide)]
    decide
  rw [h] at h5
  exact absurd h5 (by decide)

lemma scanVolume_iff (ls : List (Option ℚ)) :
    scanVolume ls = true ↔ ReachesSubThreshold ls := by
  induction ls with
  | nil =>
      simp [scanVolume, ReachesSubThreshold]
  | cons o rest ih =>
      cases o with
      | none =>
          constructor
          · intro h; simp [scanVolume] at h
          · rintro ⟨i, v, hi, hv, hall⟩
            cases i with
            | zero => simp at hi
            | succ k =>
                obtain ⟨w, hw⟩ := hall 0 (Nat.succ_pos k)
                simp at hw
      | some v =>
        by_cases hv : v < -60
        · simp only [scanVolume, if_pos hv, true_iff]
          exact ⟨0, v, by simp, hv, fun j hj => absurd hj (Nat.not_lt_zero j)⟩
        · simp only [scanVolume, if_neg hv]
          rw [ih]
          constructor
          · rintro ⟨i, w, hi, hw, hall⟩
            refine ⟨i + 1, w, by simpa using hi, hw, ?_⟩
            intro j hj
            cases j with
            | zero => exact ⟨v, by simp⟩
            | succ m =>
                obtain ⟨u, hu⟩ := hall m (by omega)
                exact ⟨u, by simpa using hu⟩
          · rintro ⟨i, w, hi, hw, hall⟩
            cases i with
            | zero =>
                simp only [List.getElem?_cons_zero, Option.some_inj] at hi
                rw [← hi] at hw
                exact absurd hw hv
            | succ k =>
                refine ⟨k, w, by simpa using hi, hw, ?_⟩
                intro j hj
                obtain ⟨u, hu⟩ := hall (j + 1) (by omega)
                exact ⟨u, by simpa using hu⟩

lemma ratTrunc_eq_floor {q : ℚ} (h : 0 ≤ q) : ratTrunc q = ⌊q⌋ := if_pos h

lemma clampPan_bounds (q : ℚ) : 0 ≤ clampPan q ∧ clampPan q ≤ 3/10 :=
  ⟨le_max_left 0 _, max_le (by norm_num) (min_le_left _ _)⟩

lemma nudgeAxis_bounds (s e : ℚ) (u : Bool) (he0 : 0 ≤ e) (he3 : e ≤ 3/10) :
    0 ≤ nudgeAxis s e u ∧ nudgeAxis s e u ≤ 3/10 := by
  unfold nudgeAxis
  by_cases h : |e - s| < 1/10
  · rw [if_pos h]; exact clampPan_bounds _
  · rw [if_neg h]; exact ⟨he0, he3⟩

lemma nudgeAxis_gap (s e : ℚ) (u : Bool)
    (h : 1/10 ≤ |e - s| ∨
      (0 ≤ s + nudgeDelta u ∧ s + nudgeDelta u ≤ 3/10)) :
    1/10 ≤ |nudgeAxis s e u - s| := by
  unfold nudgeAxis
  by_cases hc : |e - s| < 1/10
  · rw [if_pos hc]
    rcases h with h | ⟨h0, h3⟩
    · linarith
    · have hd : (if u = true then (2:ℚ)/10 else -(2/10)) = nudgeDelta u := rfl
      rw [hd]
      have hcl : clampPan (s + nudgeDelta u) = s + nudgeDelta u := by
        unfold clampPan
        rw [min_eq_right h3, max_eq_right h0]
      rw [hcl, add_sub_cancel_left]
      cases u with
      | false =>
          rw [show nudgeDelta false = -(2/10) from rfl, abs_neg,
            abs_of_nonneg (by norm_num : (0:ℚ) ≤ 2/10)]
          norm_num
      | true =>
          rw [show nudgeDelta true = 2/10 from rfl,
            abs_of_nonneg (by norm_num : (0:ℚ) ≤ 2/10)]
          norm_num
  · rw [if_neg hc]
    exact le_of_not_lt hc

lemma pipelineTail_exit_cases (env : Env) (t : ℚ) (clips : List String) :
    (pipelineTail env t clips).1 = 0 ∨ (pipelineTail env t clips).1 = 1 := by
  simp only [pipelineTail]
  split_ifs <;> simp

lemma mem_verifyEvents (env : Env) (e : Event) :
    e ∈ verifyEvents env ↔
      ¬(env.verifyExit = 0 ∧ env.verifyStdoutNonempty) ∧
        e = .warnNoAudioStream := by
  unfold verifyEvents; split_ifs with h <;> simp [h]

lemma mem_subtitleEvents (env : Env) (e : Event) :
    e ∈ subtitleEvents env ↔
      env.srtExists = true ∧
        e = .burnSubtitles env.outputFile (env.absPath env.srtFile)
          env.subtitledOutput := by
  unfold subtitleEvents; split_ifs with h <;> simp [h]

lemma mem_musicEvents (env : Env) (t : ℚ) (e : Event) :
    e ∈ musicEvents env t ↔
      (∃ m rest, env.musicFiles = m :: rest ∧
        e = .trimMusic m t env.trimmedMusic) ∨
      (env.musicFiles ≠ [] ∧ env.trimExit = 0 ∧
        e = .mixMusic env.subtitledOutput env.trimmedMusic true 2 true
          env.finalOutput) := by
  unfold musicEvents
  cases hm : env.musicFiles with
  | nil => simp
  | cons m rest => split_ifs with h <;> simp [h]

lemma mem_cleanupEvents (env : Env) (clips : List String) (e : Event) :
    e ∈ cleanupEvents env clips ↔
      (∃ p, p ∈ clips ∧ env.clipExists p = true ∧ e = .deleteFile p) ∨
        e = .deleteFile env.concatFile := by
  unfold cleanupEvents
  simp only [List.mem_append, List.mem_map, List.mem_filter, List.mem_singleton]
  constructor
  · rintro ((⟨p, ⟨hp, he⟩, rfl⟩) | h)
    · exact .inl ⟨p, hp, he, rfl⟩
    · exact .inr h
  · rintro (⟨p, hp, he, rfl⟩ | h)
    · exact .inl ⟨p, ⟨hp, he⟩, rfl⟩
    · exact .inr h

lemma pipelineTail_exit_zero (env : Env) (t : ℚ) (clips : List String) :
    (pipelineTail env t clips).1 = 0 ↔ Reached env clips := by
  unfold Reached
  simp only [pipelineTail]
  split_ifs <;> simp_all

lemma mux_mem_tail (env : Env) (t : ℚ) (clips : List String) (c : MuxCmd) :
    Event.mux c ∈ (pipelineTail env t clips).2 ↔
      Reached env clips ∧ c = muxCommand env := by
  unfold Reached
  simp only [pipelineTail]
  split_ifs <;>
    simp_all [mem_verifyEvents, mem_subtitleEvents, mem_musicEvents,
      mem_cleanupEvents, List.mem_append]

lemma mix_mem_tail (env : Env) (t : ℚ) (clips : List String)
    (vi mi : String) (df : Bool) (dt : ℕ) (vc : Bool) (out : String) :
    Event.mixMusic vi mi df dt vc out ∈ (pipelineTail env t clips).2 ↔
      Reached env clips ∧ env.muxExit = 0 ∧ env.musicFiles ≠ [] ∧
        env.trimExit = 0 ∧ vi = env.subtitledOutput ∧ mi = env.trimmedMusic ∧
        df = true ∧ dt = 2 ∧ vc = true ∧ out = env.finalOutput := by
  unfold Reached
  simp only [pipelineTail]
  split_ifs <;>
    simp_all [mem_verifyEvents, mem_subtitleEvents, mem_musicEvents,
      mem_cleanupEvents, List.mem_append]

lemma delete_mem_tail (env : Env) (t : ℚ) (clips : List String) (p : String) :
    Event.deleteFile p ∈ (pipelineTail env t clips).2 ↔
      Reached env clips ∧ env.muxExit = 0 ∧
        ((p ∈ clips ∧ env.clipExists p = true) ∨ p = env.concatFile) := by
  unfold Reached
  simp only [pipelineTail]
  split_ifs <;>
    simp_all [mem_verifyEvents, mem_subtitleEvents, mem_musicEvents,
      mem_cleanupEvents, List.mem_append, and_assoc]

lemma warn_mem_tail (env : Env) (t : ℚ) (clips : List String) :
    Event.warnNoAudioStream ∈ (pipelineTail env t clips).2 ↔
      Reached env clips ∧ env.muxExit = 0 ∧
        ¬(env.verifyExit = 0 ∧ env.verifyStdoutNonempty) := by
  unfold Reached
  simp only [pipelineTail]
  split_ifs <;>
    simp_all [mem_verifyEvents, mem_subtitleEvents, mem_musicEvents,
      mem_cleanupEvents, List.mem_append]

lemma concat_mem_tail (env : Env) (t : ℚ) (clips : List String)
    (mp vc out : String) :
    Event.concatEncode mp vc out ∈ (pipelineTail env t clips).2 ↔
      clips.filter (fun c => !env.clipExists c) = [] ∧
        mp = env.absPath env.concatFile ∧ vc = "libx264" ∧
        out = env.tempVideo := by
  simp only [pipelineTail]
  split_ifs <;>
    simp_all [mem_verifyEvents, mem_subtitleEvents, mem_musicEvents,
      mem_cleanupEvents, List.mem_append]

lemma manifest_mem_tail (env : Env) (t : ℚ) (clips : List String)
    (pa : String) (ls : List String) :
    Event.writeManifest pa ls ∈ (pipelineTail env t clips).2 ↔
      clips.filter (fun c => !env.clipExists c) = [] ∧ pa = env.concatFile ∧
        ls = clips.map fun c => fileDirective (env.absPath c) := by
  simp only [pipelineTail]
  split_ifs <;>
    simp_all [mem_verifyEvents, mem_subtitleEvents, mem_musicEvents,
      mem_cleanupEvents, List.mem_append]

lemma missing_mem_tail (env : Env) (t : ℚ) (clips : List String)
    (ms : List String) :
    Event.missingClips ms ∈ (pipelineTail env t clips).2 ↔
      clips.filter (fun c => !env.clipExists c) ≠ [] ∧
        ms = clips.filter (fun c => !env.clipExists c) := by
  simp only [pipelineTail]
  split_ifs <;>
    simp_all [mem_verifyEvents, mem_subtitleEvents, mem_musicEvents,
      mem_cleanupEvents, List.mem_append]

lemma render_not_mem_tail (env : Env) (t : ℚ) (clips : List String)
    (im : String) (f : ZoompanFilter) (d : ℚ) (out : String) :
    Event.renderClip im f d out ∉ (pipelineTail env t clips).2 := by
  simp only [pipelineTail]
  split_ifs <;>
    simp_all [mem_verifyEvents, mem_subtitleEvents, mem_musicEvents,
      mem_cleanupEvents, List.mem_append]

lemma mem_rendersList (env : Env) (e : Event) :
    e ∈ rendersList env ↔
      ∃ i, i < env.imageFiles.length ∧
        e = Event.renderClip (env.imageFiles.getD i "")
          (generate_random_zoompan (env.draws i)
            (framesPerImage (env.narrDurProbe.getD 30) env.imageFiles.length))
          (timePerImage (env.narrDurProbe.getD 30) env.imageFiles.length)
          (pathJoin env.imageFolder (tempClipName (i + 1))) := by
  simp only [rendersList, List.mem_map, List.mem_range]
  constructor
  · rintro ⟨i, hi, rfl⟩
    exact ⟨i, hi, rfl⟩
  · rintro ⟨i, hi, rfl⟩
    exact ⟨i, hi, rfl⟩

lemma pipeline_pos (env : Env) (h : env.imageFiles.length ≠ 0) :
    pipeline env =
      ((pipelineTail env (env.narrDurProbe.getD 30) env.clipPaths).1,
        rendersList env
          ++ (pipelineTail env (env.narrDurProbe.getD 30) env.clipPaths).2) := by
  simp [pipeline, h]

/-! ## Claim theorems -/

/-- C1 counterexample: the claim "pan start and end differ by at least 0.1
on each axis after the nudge-and-clamp step" is false.  On `badDraws`
(all draws inside their sampled ranges) the x axis starts and ends at 0.25,
the positive nudge sets `x_end = 0.45` and the clamp cuts it to 0.3,
leaving `|x_end − x_start| = 0.05 < 0.1`. -/
theorem effect_params_gap_counterexample :
    badDraws.InRange ∧
      |(effectParams badDraws).xEnd - (effectParams badDraws).xStart|
        < 1/10 := by
  constructor
  · simp only [Draws.InRange, badDraws]
    norm_num
  · simp only [badDraws, effectParams, nudgeAxis, clampPan]
    norm_num [abs_lt, min_def, max_def]

/-- C1 (amended): for every in-range draw sequence, `zoom_start` and
`zoom_end` lie in [1.0, 1.5] and all four pan coordinates lie in [0, 0.3];
the nudge step guarantees at least 0.1 of movement on an axis only when
that axis either already moved by at least 0.1 or the nudged endpoint
`start ± 0.2` itself lies inside [0, 0.3] (so the clamp does not truncate
it); when the clamp truncates the nudge, the gap can drop below 0.1. -/
theorem effect_params_ranges_and_gap (d : Draws) (h : d.InRange) :
    (1 ≤ (effectParams d).zoomStart ∧ (effectParams d).zoomStart ≤ 3/2 ∧
     1 ≤ (effectParams d).zoomEnd ∧ (effectParams d).zoomEnd ≤ 3/2) ∧
    (0 ≤ (effectParams d).xStart ∧ (effectParams d).xStart ≤ 3/10 ∧
     0 ≤ (effectParams d).yStart ∧ (effectParams d).yStart ≤ 3/10 ∧
     0 ≤ (effectParams d).xEnd ∧ (effectParams d).xEnd ≤ 3/10 ∧
     0 ≤ (effectParams d).yEnd ∧ (effectParams d).yEnd ≤ 3/10) ∧
    ((1/10 ≤ |d.xEndDraw - d.xStartDraw| ∨
        (0 ≤ d.xStartDraw + nudgeDelta d.xNudgeUp ∧
          d.xStartDraw + nudgeDelta d.xNudgeUp ≤ 3/10)) →
      1/10 ≤ |(effectParams d).xEnd - (effectParams d).xStart|) ∧
    ((1/10 ≤ |d.yEndDraw - d.yStartDraw| ∨
        (0 ≤ d.yStartDraw + nudgeDelta d.yNudgeUp ∧
          d.yStartDraw + nudgeDelta d.yNudgeUp ≤ 3/10)) →
      1/10 ≤ |(effectParams d).yEnd - (effectParams d).yStart|) := by
  obtain ⟨hz1, hz2, hz3, hz4, hxs0, hxs3, hys0, hys3, hxe0, hxe3, hye0, hye3⟩
    := h
  refine ⟨?_, ?_, ?_, ?_⟩
  · rw [show (effectParams d).zoomStart
        = (if d.swapZoom = true then d.zoomEndDraw else d.zoomStartDraw)
        from rfl,
      show (effectParams d).zoomEnd
        = (if d.swapZoom = true then d.zoomStartDraw else d.zoomEndDraw)
        from rfl]
    cases d.swapZoom <;> simp <;>
      exact ⟨by linarith, by linarith, by linarith, by linarith⟩
  · have hx := nudgeAxis_bounds d.xStartDraw d.xEndDraw d.xNudgeUp hxe0 hxe3
    have hy := nudgeAxis_bounds d.yStartDraw d.yEndDraw d.yNudgeUp hye0 hye3
    exact ⟨hxs0, hxs3, hys0, hys3, hx.1, hx.2, hy.1, hy.2⟩
  · exact fun hc => nudgeAxis_gap _ _ _ hc
  · exact fun hc => nudgeAxis_gap _ _ _ hc

/-- Witness for the amended C1 theorem at `baseDraws`. -/
theorem effect_params_ranges_and_gap_witness :
    baseDraws.InRange ∧ 1 ≤ (effectParams baseDraws).zoomStart :=
  ⟨by simp only [Draws.InRange, baseDraws]; norm_num,
   (effect_params_ranges_and_gap baseDraws
      (by simp only [Draws.InRange, baseDraws]; norm_num)).1.1⟩

/-- C6: evaluated at any output frame, the emitted zoom expression equals
the spec's curve (`zoom_start` at frame 0, otherwise an ease-out quadratic
in `(frame−1)/(D−1)`), and the emitted pan expression equals the spec's
power-1.5 curve in `frame/D` — under any interpretation `powf` of ffmpeg's
`pow` that is exact on exponent 2. -/
theorem motion_curves_follow_spec (zs ze s e : ℚ) (d : ℤ)
    (powf : ℚ → ℚ → ℚ) (frame : ℕ) (hp : ∀ q : ℚ, powf q 2 = q ^ 2) :
    (zoomExpr zs ze d).eval powf frame = zoomCurveSpec zs ze d frame ∧
    (panExpr s e d).eval powf frame = panCurveSpec s e d powf frame := by
  constructor
  · simp only [zoomExpr, FExpr.eval, zoomCurveSpec]
    rcases Nat.lt_or_ge frame 2 with hf | hf
    · interval_cases frame
      · norm_num
      · norm_num
    · have h0 : frame ≠ 0 := by omega
      have h1 : ¬((frame : ℚ) ≤ 1) := by
        push_neg
        exact_mod_cast (by omega : 1 < frame)
      rw [if_neg h1, if_neg h0, hp]
  · rfl

/-- Witness for C6 at concrete parameters and frame 7. -/
theorem motion_curves_follow_spec_witness :
    (∀ q : ℚ, (fun a b => if b = 2 then a ^ 2 else 0) q 2 = q ^ 2) ∧
    (zoomExpr 1 (3/2) 50).eval (fun a b => if b = 2 then a ^ 2 else 0) 7 =
      zoomCurveSpec 1 (3/2) 50 7 :=
  ⟨fun q => by norm_num,
   (motion_curves_follow_spec 1 (3/2) 0 (3/10) 50 _ 7
      (fun q => by norm_num)).1⟩

/-- C7: the zoompan filter produced by `generate_random_zoompan` is
independent of the easing draw — changing only `easingIdx` in the consumed
draw sequence yields an identical filter. -/
theorem easing_tag_never_alters_filter (d : Draws) (e : Fin 4) (df : ℤ) :
    generate_random_zoompan { d with easingIdx := e } df =
      generate_random_zoompan d df := rfl

/-- C9: neither the timing computation nor `generate_random_zoompan` guards
the precondition D ≥ 2.  For any narration duration T ≥ 0 and image count
N > 0 with T/N < 0.08 s, the per-image frame count `int(T/N * 25)` is at
most 1, the pipeline hands exactly that count to `generate_random_zoompan`
for every image, and the emitted zoom expression's (unique) denominator
`D − 1` is zero or negative. -/
theorem degenerate_frame_count_unguarded (env : Env) (t : ℚ) (n : ℕ)
    (hn : 0 < n) (ht : 0 ≤ t) (hr : t / n < 2/25)
    (hN : env.imageFiles.length = n) (hT : env.narrDurProbe = some t) :
    framesPerImage t n ≤ 1 ∧
    ((framesPerImage t n : ℚ) - 1 ≤ 0) ∧
    (∀ (dr : Draws) (powf : ℚ → ℚ → ℚ) (fr : ℚ),
      (generate_random_zoompan dr (framesPerImage t n)).z.divisorVals powf fr
        = [(framesPerImage t n : ℚ) - 1]) ∧
    (∀ i, i < n →
      Event.renderClip (env.imageFiles.getD i "")
        (generate_random_zoompan (env.draws i) (framesPerImage t n))
        (timePerImage t n)
        (pathJoin env.imageFolder (tempClipName (i + 1)))
        ∈ (pipeline env).2) := by
  have hn0 : (0:ℚ) < (n:ℚ) := by exact_mod_cast hn
  have hq0 : (0:ℚ) ≤ t / n * 25 :=
    mul_nonneg (div_nonneg ht hn0.le) (by norm_num)
  have hfr : framesPerImage t n = ⌊t / (n:ℚ) * 25⌋ := by
    unfold framesPerImage timePerImage
    exact ratTrunc_eq_floor hq0
  have hlt : t / (n:ℚ) * 25 < 2 := by linarith
  have hle1 : framesPerImage t n ≤ 1 := by
    rw [hfr]
    have h2 : ⌊t / (n:ℚ) * 25⌋ < 2 := by
      rw [Int.floor_lt]
      exact_mod_cast hlt
    omega
  refine ⟨hle1, ?_, ?_, ?_⟩
  · have hc : (framesPerImage t n : ℚ) ≤ 1 := by exact_mod_cast hle1
    linarith
  · intro dr powf fr
    rfl
  · intro i hi
    have hN0 : env.imageFiles.length ≠ 0 := by omega
    rw [pipeline_pos env hN0]
    apply List.mem_append_left
    rw [mem_rendersList]
    refine ⟨i, by omega, ?_⟩
    have hget : env.narrDurProbe.getD 30 = t := by rw [hT]; rfl
    rw [hget, hN]

/-- Witness for C9: 0.1 s of narration over 2 images gives 1 frame per
clip and a zero denominator in the zoom expression. -/
theorem degenerate_frame_count_unguarded_witness :
    framesPerImage (1/10) 2 ≤ 1 ∧ ((framesPerImage (1/10) 2 : ℚ) - 1 ≤ 0) :=
  ⟨(degenerate_frame_count_unguarded shortEnv (1/10) 2 (by norm_num)
      (by norm_num) (by norm_num) rfl rfl).1,
   (degenerate_frame_count_unguarded shortEnv (1/10) 2 (by norm_num)
      (by norm_num) (by norm_num) rfl rfl).2.1⟩

/-- C10: when the duration probe succeeds with a nonzero value but the
volume analysis raises or yields no parsed `mean_volume` reading,
`is_audio_silent` returns `False` — the audio is treated as non-silent. -/
theorem silence_check_lenient_on_volume_failure (dur : Option ℚ) (q : ℚ)
    (vol : Option (List (Option ℚ)))
    (hd : dur = some q) (hq : q ≠ 0)
    (hv : vol = none ∨ ∃ ls, vol = some ls ∧ ∀ o ∈ ls, o = none) :
    is_audio_silent dur vol = false := by
  subst hd
  rcases hv with rfl | ⟨ls, rfl, hall⟩
  · simp [is_audio_silent, hq]
  · cases ls with
    | nil => simp [is_audio_silent, hq, scanVolume]
    | cons o rest =>
        have ho := hall o (List.mem_cons_self o rest)
        subst ho
        simp [is_audio_silent, hq, scanVolume]

/-- Witness for C10: 5 s of narration whose volume analysis raised. -/
theorem silence_check_lenient_witness :
    is_audio_silent (some 5) none = false :=
  silence_check_lenient_on_volume_failure (some 5) 5 none rfl (by norm_num)
    (Or.inl rfl)

/-- C3: if any expected clip is absent the run exits 1, reports exactly the
absent paths, writes no manifest and never invokes the concatenation
encoder; if all clips exist it writes the manifest of absolute paths (one
`file '<path>'` directive per clip, in clip order) and invokes the
re-encoding (`libx264`) concatenation into the silent `temp_video.mp4`. -/
theorem concat_stage_gate (env : Env) (hN : env.imageFiles.length ≠ 0) :
    ((∃ c ∈ env.clipPaths, env.clipExists c = false) →
      (pipeline env).1 = 1 ∧
      Event.missingClips (env.clipPaths.filter fun c => !env.clipExists c)
        ∈ (pipeline env).2 ∧
      (∀ mp vc out, Event.concatEncode mp vc out ∉ (pipeline env).2) ∧
      (∀ pa ls, Event.writeManifest pa ls ∉ (pipeline env).2)) ∧
    ((∀ c ∈ env.clipPaths, env.clipExists c = true) →
      Event.writeManifest env.concatFile
          (env.clipPaths.map fun c => fileDirective (env.absPath c))
        ∈ (pipeline env).2 ∧
      Event.concatEncode (env.absPath env.concatFile) "libx264" env.tempVideo
        ∈ (pipeline env).2) := by
  rw [pipeline_pos env hN]
  constructor
  · rintro ⟨c, hc, hex⟩
    have hM : env.clipPaths.filter (fun c => !env.clipExists c) ≠ [] := by
      intro h0
      rw [List.filter_eq_nil_iff] at h0
      exact absurd (h0 c hc) (by simp [hex])
    refine ⟨?_, ?_, ?_, ?_⟩
    · rcases pipelineTail_exit_cases env (env.narrDurProbe.getD 30)
        env.clipPaths with h | h
      · exact absurd ((pipelineTail_exit_zero env _ _).mp h).1 hM
      · exact h
    · exact List.mem_append_right _
        ((missing_mem_tail env _ _ _).mpr ⟨hM, rfl⟩)
    · intro mp vc out hmem
      rcases List.mem_append.mp hmem with h | h
      · rcases (mem_rendersList env _).mp h with ⟨i, _, heq⟩
        exact absurd heq (by simp)
      · exact hM ((concat_mem_tail env _ _ _ _ _).mp h).1
    · intro pa ls hmem
      rcases List.mem_append.mp hmem with h | h
      · rcases (mem_rendersList env _).mp h with ⟨i, _, heq⟩
        exact absurd heq (by simp)
      · exact hM ((manifest_mem_tail env _ _ _ _).mp h).1
  · intro hall
    have hM0 : env.clipPaths.filter (fun c => !env.clipExists c) = [] := by
      rw [List.filter_eq_nil_iff]
      intro c hc
      simp [hall c hc]
    exact ⟨List.mem_append_right _
        ((manifest_mem_tail env _ _ _ _).mpr ⟨hM0, rfl, rfl⟩),
      List.mem_append_right _
        ((concat_mem_tail env _ _ _ _ _).mpr ⟨hM0, rfl, rfl, rfl⟩)⟩

/-- Witness for C3: with `temp_clip_02.mp4` absent among three expected
clips, the run exits 1. -/
theorem concat_stage_gate_witness : (pipeline missingClipEnv).1 = 1 :=
  ((concat_stage_gate missingClipEnv (by decide)).1 (by decide)).1

/-- C5: with N images and probed narration duration T, the orchestrator
uses `time_per_image = T / N` (the N per-clip durations sum exactly to T),
assigns every rendered clip the frame count `int(T/N * 25)` truncated
toward zero (floor for nonnegative values, ceiling for negative ones), and
with N = 0 exits 1 before any encoder invocation (empty trace). -/
theorem timing_and_no_images (env : Env) (t : ℚ) (n : ℕ)
    (hT : env.narrDurProbe = some t) (hN : env.imageFiles.length = n) :
    (n = 0 → pipeline env = (1, [])) ∧
    (n ≠ 0 →
      timePerImage t n = t / n ∧
      ((pipeline env).2.filterMap renderDur).sum = t ∧
      (∀ im f dsec out, Event.renderClip im f dsec out ∈ (pipeline env).2 →
        dsec = timePerImage t n ∧ f.d = framesPerImage t n) ∧
      (0 ≤ t → framesPerImage t n = ⌊timePerImage t n * 25⌋) ∧
      (t < 0 → framesPerImage t n = ⌈timePerImage t n * 25⌉)) := by
  have hget : env.narrDurProbe.getD 30 = t := by rw [hT]; rfl
  constructor
  · intro h0
    have hz : env.imageFiles.length = 0 := by omega
    simp [pipeline, hz]
  · intro hn0
    have hN0 : env.imageFiles.length ≠ 0 := by omega
    have hpos : 0 < n := Nat.pos_of_ne_zero hn0
    have hnq : (n:ℚ) ≠ 0 := Nat.cast_ne_zero.mpr hn0
    have hnqpos : (0:ℚ) < (n:ℚ) := by exact_mod_cast hpos
    refine ⟨rfl, ?_, ?_, ?_, ?_⟩
    · rw [pipeline_pos env hN0, List.filterMap_append]
      have htail : (pipelineTail env (env.narrDurProbe.getD 30)
          env.clipPaths).2.filterMap renderDur = [] := by
        rw [List.filterMap_eq_nil_iff]
        intro e he
        cases e with
        | renderClip im f dsec out =>
            exact absurd he (render_not_mem_tail env _ _ _ _ _ _)
        | _ => rfl
      rw [htail, List.append_nil]
      have hrl : (rendersList env).filterMap renderDur
          = List.replicate n (timePerImage t n) := by
        unfold rendersList
        rw [hget, hN, List.filterMap_map]
        rw [show (renderDur ∘ fun i => Event.renderClip
              (env.imageFiles.getD i "")
              (generate_random_zoompan (env.draws i) (framesPerImage t n))
              (timePerImage t n)
              (pathJoin env.imageFolder (tempClipName (i + 1))))
            = some ∘ (fun _ : ℕ => timePerImage t n) from rfl]
        rw [List.filterMap_eq_map, List.map_const', List.length_range]
      rw [hrl, List.sum_replicate, nsmul_eq_mul]
      unfold timePerImage
      rw [mul_comm, div_mul_cancel₀ t hnq]
    · intro im f dsec out hmem
      rw [pipeline_pos env hN0] at hmem
      rcases List.mem_append.mp hmem with h | h
      · rcases (mem_rendersList env _).mp h with ⟨i, hi, heq⟩
        rw [hget, hN] at heq
        injection heq with h1 h2 h3 h4
        exact ⟨h3, by rw [h2]; rfl⟩
      · exact absurd h (render_not_mem_tail env _ _ _ _ _ _)
    · intro ht0
      unfold framesPerImage
      exact ratTrunc_eq_floor
        (mul_nonneg (div_nonneg ht0 hnqpos.le) (by norm_num))
    · intro ht0
      unfold framesPerImage ratTrunc
      rw [if_neg]
      rw [not_le]
      exact mul_neg_of_neg_of_pos (div_neg_of_neg_of_pos ht0 hnqpos)
        (by norm_num)

/-- Witness for C5: 3 images and 12 s of narration — the rendered clip
durations sum to 12 s. -/
theorem timing_and_no_images_witness :
    ((pipeline baseEnv).2.filterMap renderDur).sum = 12 :=
  ((timing_and_no_images baseEnv 12 3 rfl rfl).2 (by norm_num)).2.1

/-- C4: `is_audio_silent` returns true exactly when the probed duration is
unreadable or zero, or the volume scan reaches a parsed `mean_volume`
reading below −60 dB; in the pipeline (all prior stages passed) a silent
classification exits 1 with no mux invocation (so no `movie.mp4`), a
non-silent classification muxes with the video stream copied and the audio
encoded AAC / 128 kbps / stereo / 44.1 kHz truncated to the shorter input
(`-shortest`), and a failed audio verification of the output only warns —
the run still exits 0. -/
theorem mux_stage_silence_gate :
    (∀ (dur : Option ℚ) (vol : Option (List (Option ℚ))),
      is_audio_silent dur vol = true ↔
        dur = none ∨ dur = some 0 ∨
          ∃ ls, vol = some ls ∧ ReachesSubThreshold ls) ∧
    (∀ env : Env, env.imageFiles.length ≠ 0 →
      env.clipPaths.filter (fun c => !env.clipExists c) = [] →
      env.concatExit = 0 → env.tempVideoCreated = true →
      ((is_audio_silent env.silentDurProbe env.volAnalysis = true →
          (pipeline env).1 = 1 ∧
          ∀ c : MuxCmd, Event.mux c ∉ (pipeline env).2) ∧
       (is_audio_silent env.silentDurProbe env.volAnalysis = false →
          env.speechExists = true →
          Event.mux
              { videoInput := env.tempVideo, audioInput := env.speechFile,
                output := env.outputFile, videoCodec := "copy",
                audioCodec := "aac", bitrate := "128k", channels := 2,
                sampleRate := 44100, shortest := true }
            ∈ (pipeline env).2) ∧
       (is_audio_silent env.silentDurProbe env.volAnalysis = false →
          env.speechExists = true → env.muxExit = 0 →
          ¬(env.verifyExit = 0 ∧ env.verifyStdoutNonempty) →
          Event.warnNoAudioStream ∈ (pipeline env).2 ∧
          (pipeline env).1 = 0))) := by
  constructor
  · intro dur vol
    cases dur with
    | none => simp [is_audio_silent]
    | some q =>
        by_cases hq : q = 0
        · simp [is_audio_silent, hq]
        · cases vol with
          | none => simp [is_audio_silent, hq]
          | some ls => simp [is_audio_silent, hq, scanVolume_iff]
  · intro env hN hfil hcon htv
    refine ⟨?_, ?_, ?_⟩
    · intro hsil
      have hnr : ¬ Reached env env.clipPaths := by
        intro hr
        rw [hr.2.2.2.1] at hsil
        exact Bool.false_ne_true hsil
      constructor
      · rw [pipeline_pos env hN]
        rcases pipelineTail_exit_cases env (env.narrDurProbe.getD 30)
          env.clipPaths with h | h
        · exact absurd ((pipelineTail_exit_zero env _ _).mp h) hnr
        · exact h
      · intro c hmem
        rw [pipeline_pos env hN] at hmem
        rcases List.mem_append.mp hmem with h | h
        · rcases (mem_rendersList env _).mp h with ⟨i, _, heq⟩
          exact absurd heq (by simp)
        · exact hnr ((mux_mem_tail env _ _ _).mp h).1
    · intro hsil hsp
      rw [pipeline_pos env hN]
      exact List.mem_append_right _ ((mux_mem_tail env _ _ _).mpr
        ⟨⟨hfil, hcon, htv, hsil, hsp⟩, rfl⟩)
    · intro hsil hsp hm hv
      constructor
      · rw [pipeline_pos env hN]
        exact List.mem_append_right _ ((warn_mem_tail env _ _).mpr
          ⟨⟨hfil, hcon, htv, hsil, hsp⟩, hm, hv⟩)
      · rw [pipeline_pos env hN]
        exact (pipelineTail_exit_zero env _ _).mpr
          ⟨hfil, hcon, htv, hsil, hsp⟩

/-- Witness for C4: narration measured at −70 dB mean volume makes the run
exit 1. -/
theorem mux_stage_silence_gate_witness : (pipeline silentEnv).1 = 1 :=
  ((mux_stage_silence_gate.2 silentEnv (by decide) (by decide) rfl rfl).1
    (by decide)).1

/-- C2 counterexample: the claim "with no subtitle file the music mixing
stage consumes the un-subtitled muxed video `movie.mp4`" is false.  In a
run without a subtitle file the (only) music-mix invocation still takes
`/scene/movie_subtitled.mp4` as its video/audio input; `movie.mp4` is
never an input of a mix invocation. -/
theorem music_mix_input_counterexample :
    noSrtEnv.srtExists = false ∧
    mixInputs (pipeline noSrtEnv).2
      = [pathJoin "/scene" "movie_subtitled.mp4"] ∧
    pathJoin "/scene" "movie.mp4" ∉ mixInputs (pipeline noSrtEnv).2 := by
  refine ⟨rfl, by decide, by decide⟩

/-- C2 (amended): the music mixing stage always consumes
`movie_subtitled.mp4` — the subtitle stage's output path — as its
video/audio input, regardless of whether a subtitle file existed or burn-in
succeeded; there is no fallback to the muxed `movie.mp4` (whose path the
mix input never equals). -/
theorem music_mix_uses_subtitled_path (env : Env)
    (hN : env.imageFiles.length ≠ 0) (hr : Reached env env.clipPaths)
    (hm : env.muxExit = 0) (hmf : env.musicFiles ≠ [])
    (htr : env.trimExit = 0) :
    Event.mixMusic env.subtitledOutput env.trimmedMusic true 2 true
        env.finalOutput ∈ (pipeline env).2 ∧
    (∀ vi mi df dt vc out,
      Event.mixMusic vi mi df dt vc out ∈ (pipeline env).2 →
        vi = env.subtitledOutput) ∧
    env.subtitledOutput ≠ env.outputFile := by
  refine ⟨?_, ?_, ?_⟩
  · rw [pipeline_pos env hN]
    exact List.mem_append_right _ ((mix_mem_tail env _ _ _ _ _ _ _ _).mpr
      ⟨hr, hm, hmf, htr, rfl, rfl, rfl, rfl, rfl, rfl⟩)
  · intro vi mi df dt vc out hmem
    rw [pipeline_pos env hN] at hmem
    rcases List.mem_append.mp hmem with h | h
    · rcases (mem_rendersList env _).mp h with ⟨i, _, heq⟩
      exact absurd heq (by simp)
    · exact ((mix_mem_tail env _ _ _ _ _ _ _ _).mp h).2.2.2.2.1
  · intro hcontra
    have hinj := pathJoin_right_inj
      (f := env.imageFolder) (a := "movie_subtitled.mp4") (b := "movie.mp4")
      hcontra
    exact absurd hinj (by decide)

/-- Witness for the amended C2 theorem: in the subtitle-less run the mix
invocation's video input is `movie_subtitled.mp4`. -/
theorem music_mix_uses_subtitled_path_witness :
    Event.mixMusic (Env.subtitledOutput noSrtEnv) (Env.trimmedMusic noSrtEnv)
      true 2 true (Env.finalOutput noSrtEnv) ∈ (pipeline noSrtEnv).2 :=
  (music_mix_uses_subtitled_path noSrtEnv (by decide) (by decide) rfl
    (by decide) rfl).1

/-- C8: intermediate clip files and the concatenation manifest are deleted
exactly when the run reaches the mux encoder and that encoder exits zero
(subtitle / trim / mix outcomes never affect deletion, which the universal
quantification over environments covers), and `temp_video.mp4` is never
deleted, success or not. -/
theorem cleanup_exactly_on_success (env : Env) :
    Event.deleteFile env.tempVideo ∉ (pipeline env).2 ∧
    (∀ p, Event.deleteFile p ∈ (pipeline env).2 ↔
      env.muxExit = 0 ∧ (∃ c : MuxCmd, Event.mux c ∈ (pipeline env).2) ∧
        (p ∈ env.clipPaths ∨ p = env.concatFile)) := by
  by_cases hN : env.imageFiles.length = 0
  · constructor
    · simp [pipeline, hN]
    · intro p
      simp [pipeline, hN]
  · have hmain : ∀ p, Event.deleteFile p ∈ (pipeline env).2 ↔
        env.muxExit = 0 ∧ (∃ c : MuxCmd, Event.mux c ∈ (pipeline env).2) ∧
          (p ∈ env.clipPaths ∨ p = env.concatFile) := by
      intro p
      rw [pipeline_pos env hN]
      constructor
      · intro hmem
        rcases List.mem_append.mp hmem with h | h
        · rcases (mem_rendersList env _).mp h with ⟨i, _, heq⟩
          exact absurd heq (by simp)
        · obtain ⟨hr, hm, hp⟩ := (delete_mem_tail env _ _ _).mp h
          refine ⟨hm, ⟨muxCommand env, List.mem_append_right _
            ((mux_mem_tail env _ _ _).mpr ⟨hr, rfl⟩)⟩, ?_⟩
          rcases hp with ⟨hp, _⟩ | hp
          · exact Or.inl hp
          · exact Or.inr hp
      · rintro ⟨hm, ⟨c, hcmem⟩, hp⟩
        have hr : Reached env env.clipPaths := by
          rcases List.mem_append.mp hcmem with h | h
          · rcases (mem_rendersList env _).mp h with ⟨i, _, heq⟩
            exact absurd heq (by simp)
          · exact ((mux_mem_tail env _ _ _).mp h).1
        apply List.mem_append_right
        apply (delete_mem_tail env _ _ _).mpr
        refine ⟨hr, hm, ?_⟩
        rcases hp with hp | hp
        · refine Or.inl ⟨hp, ?_⟩
          have h1 := hr.1
          rw [List.filter_eq_nil_iff] at h1
          have h2 := h1 p hp
          simpa using h2
        · exact Or.inr hp
    refine ⟨?_, hmain⟩
    intro hmem
    obtain ⟨hm, hmux, hp⟩ := (hmain env.tempVideo).mp hmem
    rcases hp with hp | hp
    · simp only [Env.clipPaths, List.mem_map, List.mem_range] at hp
      obtain ⟨i, _, heq⟩ := hp
      exact tempClipName_ne_tempVideo (i + 1) (pathJoin_right_inj heq)
    · have hinj := pathJoin_right_inj (f := env.imageFolder)
        (a := "temp_video.mp4") (b := "concat_list.txt") hp
      exact absurd hinj (by decide)

/-- Witness for C8: in the fully successful run, `temp_video.mp4` is not
among the deleted files. -/
theorem cleanup_exactly_on_success_witness :
    Event.deleteFile (Env.tempVideo baseEnv) ∉ (pipeline baseEnv).2 :=
  (cleanup_exactly_on_success baseEnv).1

end MovieGen
